import Mathlib

/-!
Shallow embedding of the flight-management booking core
(bookings/models.py, bookings/views.py, bookings/forms.py, bookings/tasks.py,
payments/models.py, payments/views.py, flights/models.py).

Conventions:
* Django rows become Lean structures; the database is a `DB` record of lists.
* Timestamps and dates are `Int` (seconds); `DecimalField` prices are `Int`
  (hundredths of the currency unit).
* Status and cabin-class values stay the `String` literals the source uses.
* Foreign keys are stored ids, resolved through `find?` exactly where the
  source performs an ORM join or attribute access.
* The seat-map row-layout fields of `Flight`/`Aircraft` (used only to render
  the seat grid) are not modelled; no verified operation reads them.
-/

structure Flight where
  flight_number : String
  departure_datetime : Int
  arrival_datetime : Int
  economy_price : Int
  business_price : Int
  first_class_price : Int
deriving DecidableEq, Repr

structure Booking where
  booking_id : Nat
  booking_date : Int
  status : String
  number_of_passengers : Nat
  seat_class : String
  passenger : Nat
  flight : String
deriving DecidableEq, Repr

structure Ticket where
  ticket_id : Nat
  seat_number : String
  passenger_name : String
  passport : String
  passenger_dob : Int
  nationality : String
  booking : Nat
deriving DecidableEq, Repr

structure Payment where
  payment_id : Nat
  payment_method : String
  payment_date : Int
  booking : Nat
deriving DecidableEq, Repr

structure DB where
  flights : List Flight
  bookings : List Booking
  tickets : List Ticket
  payments : List Payment
deriving DecidableEq, Repr

def findBooking (db : DB) (bid : Nat) : Option Booking :=
  db.bookings.find? (fun b => b.booking_id == bid)

def findFlight (db : DB) (fn : String) : Option Flight :=
  db.flights.find? (fun f => f.flight_number == fn)

/-- Seat-claim derivation of `seat_selection` (bookings/views.py line 42):
`Ticket.objects.filter(booking__flight=flight).values_list('seat_number')`.
The filter joins each ticket to its booking and keeps those on the given
flight; it applies no condition on the booking's status. -/
def takenSeats (db : DB) (fn : String) : List String :=
  (db.tickets.filter (fun t =>
    match findBooking db t.booking with
    | some b => b.flight == fn
    | none => false)).map (fun t => t.seat_number)

/-- The spec's derived seat-claim set: tickets whose owning reservation is
Pending or Confirmed for the flight (spec section 3, "Seat claim"). Used to
compare the code's `takenSeats` against the specified notion and to state
the non-cancelled seat-uniqueness invariant. -/
def activeSeatTickets (db : DB) (fn : String) (seat : String) : List Ticket :=
  db.tickets.filter (fun t =>
    t.seat_number == seat &&
    match findBooking db t.booking with
    | some b => b.flight == fn && !(b.status == "Cancelled")
    | none => false)

/-- Expiry threshold of `delete_expired_bookings`: `timedelta(minutes=5)`
(bookings/tasks.py line 10), in seconds. -/
def pendingAgeThreshold : Int := 5 * 60

/-- The queryset predicate of `delete_expired_bookings`:
`status='Pending', booking_date__lt=now - timedelta(minutes=5)`. -/
def isExpired (now : Int) (b : Booking) : Bool :=
  b.status == "Pending" && b.booking_date < now - pendingAgeThreshold

/-- `delete_expired_bookings` (bookings/tasks.py): counts the Pending
bookings older than the cutoff and bulk-updates them to Cancelled, returning
the count and the new database state. The source guards the `update` with
`if count > 0`, which only skips an update that would touch no row, so the
unconditional map below is the same state transformation. Tickets and
payments are not touched. -/
def delete_expired_bookings (now : Int) (db : DB) : Nat × DB :=
  let count := (db.bookings.filter (isExpired now)).length
  (count,
    { db with
      bookings := db.bookings.map (fun b =>
        if isExpired now b then { b with status := "Cancelled" } else b) })

/-- Raw per-seat form payload of `TicketForm` (bookings/forms.py): the
fields the form binds. The date of birth is a day-resolution `Int`. -/
structure TicketFormData where
  passenger_name : String
  passport : String
  nationality : String
  passenger_dob : Int
deriving DecidableEq, Repr

/-- ASCII apostrophe, written by code point to keep the character class of
`clean_passenger_name` explicit. -/
def isApostropheChar (c : Char) : Bool := c.toNat == 39

/-- Character class of the name pattern in `clean_passenger_name`:
letters, whitespace, hyphen, apostrophe. -/
def isNameChar (c : Char) : Bool :=
  c.isAlpha || c.isWhitespace || c == '-' || isApostropheChar c

/-- `clean_passenger_name` plus the model field's `max_length=100`: the
name must be non-empty and match the letters/space/hyphen/apostrophe
pattern. -/
def validName (s : String) : Bool :=
  s.length ≤ 100 && s.length > 0 && s.data.all isNameChar

/-- `clean_passport`: one letter followed by eight alphanumerics
(nine characters total). -/
def validPassport (s : String) : Bool :=
  match s.data with
  | [] => false
  | c :: rest =>
    c.isAlpha && rest.length == 8 && rest.all (fun d => d.isAlpha || d.isDigit)

/-- `clean_nationality`: exactly ten digits. -/
def validNationality (s : String) : Bool :=
  s.length == 10 && s.data.all Char.isDigit

/-- Per-field validation errors of one `TicketForm`, one entry per failing
field, in the form's field order. Django validates every field of a bound
form independently, so no failing field hides another. -/
def formErrors (today : Int) (f : TicketFormData) : List String :=
  (if validName f.passenger_name then [] else ["passenger_name"]) ++
  (if validPassport f.passport then [] else ["passport"]) ++
  (if validNationality f.nationality then [] else ["nationality"]) ++
  (if f.passenger_dob ≤ today then [] else ["passenger_dob"])

/-- `TicketForm.is_valid()`: no field has an error. -/
def formIsValid (today : Int) (f : TicketFormData) : Bool :=
  (formErrors today f).isEmpty

/-- Python `str.capitalize()` as applied to the posted seat class in
`create_booking`: first character uppercased, the rest lowercased. -/
def strCapitalize (s : String) : String :=
  match s.data with
  | [] => s
  | c :: cs => String.mk (c.toUpper :: cs.map Char.toLower)

inductive CreateResult where
  | notFound
  | validationFailure (forms_list : List (String × List String))
  | success (booking_id : Nat)
deriving DecidableEq, Repr

/-- `create_booking` (bookings/views.py lines 127-197). Inputs: the posted
flight id, the parsed seat list with each seat's form payload, the raw
posted seat class, the requesting user's profile id, today's date (for the
date-of-birth check), the creation timestamp, and the fresh primary keys
the store would assign. Steps, in source order: capitalize the class,
resolve the flight (404 when absent), validate every seat's form while
collecting the full per-seat error list (the loop never breaks), and if any
form is invalid re-render with all errors and persist nothing; otherwise
persist one Pending Booking with `number_of_passengers = len(seats_list)`
and then one Ticket per seat under it. The source computes `ticket_price`
only for display and persists no price; it performs no seat-availability
check before inserting the tickets. -/
def create_booking (db : DB) (flight_id : String)
    (seats : List (String × TicketFormData)) (seat_class_raw : String)
    (profile : Nat) (today : Int) (now : Int)
    (newBookingId : Nat) (firstTicketId : Nat) : CreateResult × DB :=
  let seat_class := strCapitalize seat_class_raw
  match findFlight db flight_id with
  | none => (.notFound, db)
  | some _ =>
    let forms_list := seats.map (fun sf => (sf.1, formErrors today sf.2))
    let all_valid := seats.all (fun sf => formIsValid today sf.2)
    if !all_valid then (.validationFailure forms_list, db)
    else
      let booking : Booking :=
        { booking_id := newBookingId, booking_date := now, status := "Pending",
          number_of_passengers := seats.length, seat_class := seat_class,
          passenger := profile, flight := flight_id }
      let newTickets : List Ticket := seats.enum.map (fun p =>
        { ticket_id := firstTicketId + p.1, seat_number := p.2.1,
          passenger_name := p.2.2.passenger_name, passport := p.2.2.passport,
          passenger_dob := p.2.2.passenger_dob,
          nationality := p.2.2.nationality, booking := newBookingId })
      (.success newBookingId,
        { db with bookings := db.bookings ++ [booking],
                  tickets := db.tickets ++ newTickets })

/-- The `seat_prices` dictionary of `Booking.total_price`
(bookings/models.py lines 47-51). -/
def seat_prices (f : Flight) : List (String × Int) :=
  [("Economy", f.economy_price), ("Business", f.business_price),
   ("First", f.first_class_price)]

/-- `Booking.total_price` (bookings/models.py): dictionary lookup of the
seat class; `none` models the raised `ValidationError("Invalid seat class")`,
otherwise the unit price times the stored passenger count. The flight the
booking references is passed in, as the ORM resolves `self.flight`. -/
def total_price (f : Flight) (b : Booking) : Option Int :=
  match (seat_prices f).lookup b.seat_class with
  | none => none
  | some p => some (p * (b.number_of_passengers : Int))

/-- `Payment.get_amount` (payments/models.py lines 17-24): chained
seat-class comparisons against the booking's flight prices, falling through
to 0 for an unknown class. -/
def get_amount (f : Flight) (b : Booking) : Int :=
  if b.seat_class == "Economy" then f.economy_price * b.number_of_passengers
  else if b.seat_class == "Business" then
    f.business_price * b.number_of_passengers
  else if b.seat_class == "First" then
    f.first_class_price * b.number_of_passengers
  else 0

inductive PayResult where
  | notFound
  | alreadyConfirmed
  | paid
  | renderForm
deriving DecidableEq, Repr

/-- `process_payment` (payments/views.py): looks the booking up by id and
owner (404 when absent), short-circuits when the status is already
Confirmed, and on POST creates a Payment row and sets the status to
Confirmed; a GET renders the payment form without touching state. The
source checks only `status == 'Confirmed'` before the transition. -/
def process_payment (db : DB) (booking_id : Nat) (requester : Nat)
    (isPost : Bool) (now : Int) (newPaymentId : Nat) : PayResult × DB :=
  match db.bookings.find? (fun b =>
      b.booking_id == booking_id && b.passenger == requester) with
  | none => (.notFound, db)
  | some booking =>
    if booking.status == "Confirmed" then (.alreadyConfirmed, db)
    else if isPost then
      (.paid,
        { db with
          payments := db.payments ++
            [{ payment_id := newPaymentId, payment_method := "Credit Card",
               payment_date := now, booking := booking.booking_id }],
          bookings := db.bookings.map (fun b =>
            if b.booking_id == booking_id then { b with status := "Confirmed" }
            else b) })
    else (.renderForm, db)

inductive CancelResult where
  | errorNotFound
  | alreadyCancelled
  | flightDeparted
  | ticketCancelled
  | ticketAndBookingCancelled
  | renderNoOp
deriving DecidableEq, Repr

/-- `cancel_ticket` (bookings/views.py lines 221-258). The source's
`get_object_or_404(Ticket, ticket_id=ticket_id, booking__passenger=passenger)`
is modelled as: find the ticket by id, resolve its booking, and require the
booking's passenger to be the requester; every failure of that combined
lookup raises and is caught by the surrounding `except`, leaving the state
unchanged (`errorNotFound`). Then, in source order: already-Cancelled check,
departed-flight check, and on POST the ticket is deleted after reading the
pre-deletion ticket count; when that count was `<= 1` the booking is set to
Cancelled. A non-POST request after the checks changes nothing. -/
def cancel_ticket (db : DB) (ticket_id : Nat) (requester : Nat)
    (now : Int) (isPost : Bool) : CancelResult × DB :=
  match db.tickets.find? (fun t => t.ticket_id == ticket_id) with
  | none => (.errorNotFound, db)
  | some ticket =>
    match findBooking db ticket.booking with
    | none => (.errorNotFound, db)
    | some booking =>
      if !(booking.passenger == requester) then (.errorNotFound, db)
      else if booking.status == "Cancelled" then (.alreadyCancelled, db)
      else
        match findFlight db booking.flight with
        | none => (.errorNotFound, db)
        | some flight =>
          if flight.departure_datetime < now then (.flightDeparted, db)
          else if isPost then
            let remaining_count :=
              (db.tickets.filter (fun t => t.booking == booking.booking_id)).length
            let db2 : DB :=
              { db with tickets :=
                  db.tickets.filter (fun t => !(t.ticket_id == ticket_id)) }
            if remaining_count ≤ 1 then
              (.ticketAndBookingCancelled,
                { db2 with bookings := db2.bookings.map (fun b =>
                    if b.booking_id == booking.booking_id then
                      { b with status := "Cancelled" }
                    else b) })
            else (.ticketCancelled, db2)
          else (.renderNoOp, db)

/-!
Concrete database fixtures used by the claim-level evaluation theorems.
Each claim has its own fixture so the scenarios stay independent.
-/

def c1Flight : Flight :=
  { flight_number := "F1", departure_datetime := 100000, arrival_datetime := 110000,
    economy_price := 10000, business_price := 20000, first_class_price := 30000 }

/-- A flight with one Pending booking (created at time 0) holding seat 12A. -/
def dbC1 : DB :=
  { flights := [c1Flight],
    bookings := [{ booking_id := 1, booking_date := 0, status := "Pending",
                   number_of_passengers := 1, seat_class := "Economy",
                   passenger := 2, flight := "F1" }],
    tickets := [{ ticket_id := 7, seat_number := "12A", passenger_name := "John Doe",
                  passport := "A12345678", passenger_dob := 0,
                  nationality := "1234567890", booking := 1 }],
    payments := [] }

def c2Flight : Flight :=
  { flight_number := "F2", departure_datetime := 100000, arrival_datetime := 110000,
    economy_price := 10000, business_price := 20000, first_class_price := 30000 }

/-- A flight where seat 12A is already held by a ticket of a Pending booking. -/
def dbC2 : DB :=
  { flights := [c2Flight],
    bookings := [{ booking_id := 1, booking_date := 0, status := "Pending",
                   number_of_passengers := 1, seat_class := "Economy",
                   passenger := 1, flight := "F2" }],
    tickets := [{ ticket_id := 7, seat_number := "12A", passenger_name := "First Holder",
                  passport := "A12345678", passenger_dob := 0,
                  nationality := "1234567890", booking := 1 }],
    payments := [] }

/-- Valid passenger details for the second, conflicting request. -/
def c2Form : TicketFormData :=
  { passenger_name := "Second Holder", passport := "B12345678",
    nationality := "9876543210", passenger_dob := 0 }

/-- A booking that has already been cancelled, owned by passenger 3. -/
def dbC3 : DB :=
  { flights := [{ flight_number := "F3", departure_datetime := 100000,
                  arrival_datetime := 110000, economy_price := 10000,
                  business_price := 20000, first_class_price := 30000 }],
    bookings := [{ booking_id := 5, booking_date := 0, status := "Cancelled",
                   number_of_passengers := 2, seat_class := "Economy",
                   passenger := 3, flight := "F3" }],
    tickets := [], payments := [] }

/-- A booking created at time 0, still Pending. -/
def c4Booking : Booking :=
  { booking_id := 9, booking_date := 0, status := "Pending",
    number_of_passengers := 1, seat_class := "Economy",
    passenger := 2, flight := "F4" }

def dbC4 : DB :=
  { flights := [], bookings := [c4Booking], tickets := [], payments := [] }

def c7Flight : Flight :=
  { flight_number := "F7", departure_datetime := 100000, arrival_datetime := 110000,
    economy_price := 10000, business_price := 20000, first_class_price := 30000 }

def c7BookingBusiness : Booking :=
  { booking_id := 1, booking_date := 0, status := "Pending",
    number_of_passengers := 2, seat_class := "Business", passenger := 2,
    flight := "F7" }

def c7BookingSpace : Booking :=
  { booking_id := 2, booking_date := 0, status := "Pending",
    number_of_passengers := 1, seat_class := "Space", passenger := 2,
    flight := "F7" }

def c6Flight : Flight :=
  { flight_number := "F6", departure_datetime := 100000, arrival_datetime := 110000,
    economy_price := 10000, business_price := 20000, first_class_price := 30000 }

def dbC6 : DB :=
  { flights := [c6Flight], bookings := [], tickets := [], payments := [] }

/-- Two seats: 1A has valid details, 1B has a malformed passport and a
non-digit national id. -/
def c6Seats : List (String × TicketFormData) :=
  [("1A", { passenger_name := "Good Passenger", passport := "A12345678",
            nationality := "1234567890", passenger_dob := 0 }),
   ("1B", { passenger_name := "Bad Passenger", passport := "123",
            nationality := "ABC", passenger_dob := 0 })]

def c9Flight : Flight :=
  { flight_number := "F9", departure_datetime := -100, arrival_datetime := -50,
    economy_price := 10000, business_price := 20000, first_class_price := 30000 }

def c9Booking : Booking :=
  { booking_id := 1, booking_date := 0, status := "Pending",
    number_of_passengers := 1, seat_class := "Economy", passenger := 2,
    flight := "F9" }

def c9Ticket : Ticket :=
  { ticket_id := 7, seat_number := "12A", passenger_name := "John Doe",
    passport := "A12345678", passenger_dob := 0, nationality := "1234567890",
    booking := 1 }

def dbC9 : DB :=
  { flights := [c9Flight], bookings := [c9Booking], tickets := [c9Ticket],
    payments := [] }

/-- Number of tickets stored under the booking id (the Django
`booking.tickets.count()`). -/
def ticketCount (db : DB) (bid : Nat) : Nat :=
  (db.tickets.filter (fun t => t.booking == bid)).length

/-- Well-formedness provided by the store: `ticket_id` is an AutoField
primary key, so ticket ids are pairwise distinct. -/
abbrev NoDupTicketIds (db : DB) : Prop :=
  (db.tickets.map Ticket.ticket_id).Nodup

/-- The cascade invariant of the spec: a reservation whose ticket count has
reached zero is Cancelled. -/
abbrev ZeroTicketsCancelled (db : DB) : Prop :=
  ∀ b ∈ db.bookings, ticketCount db b.booking_id = 0 → b.status = "Cancelled"

def c5Flight : Flight :=
  { flight_number := "F5", departure_datetime := 100000, arrival_datetime := 110000,
    economy_price := 10000, business_price := 20000, first_class_price := 30000 }

def c5Booking : Booking :=
  { booking_id := 1, booking_date := 0, status := "Pending",
    number_of_passengers := 1, seat_class := "Economy", passenger := 2,
    flight := "F5" }

def c5Ticket : Ticket :=
  { ticket_id := 7, seat_number := "12A", passenger_name := "John Doe",
    passport := "A12345678", passenger_dob := 0, nationality := "1234567890",
    booking := 1 }

/-- A future flight with a Pending booking holding exactly one ticket. -/
def dbC5 : DB :=
  { flights := [c5Flight], bookings := [c5Booking], tickets := [c5Ticket],
    payments := [] }

def c10Flight : Flight :=
  { flight_number := "F10", departure_datetime := 100000, arrival_datetime := 110000,
    economy_price := 10000, business_price := 20000, first_class_price := 30000 }

def c10Booking : Booking :=
  { booking_id := 1, booking_date := 0, status := "Pending",
    number_of_passengers := 2, seat_class := "Economy", passenger := 2,
    flight := "F10" }

/-- A two-ticket booking from which one ticket is cancelled. -/
def dbC10 : DB :=
  { flights := [c10Flight],
    bookings := [c10Booking],
    tickets := [{ ticket_id := 7, seat_number := "12A", passenger_name := "John Doe",
                  passport := "A12345678", passenger_dob := 0,
                  nationality := "1234567890", booking := 1 },
                { ticket_id := 8, seat_number := "12B", passenger_name := "Jane Doe",
                  passport := "B12345678", passenger_dob := 0,
                  nationality := "9876543210", booking := 1 }],
    payments := [] }

/-- C1: the spec says the seats treated as taken are exactly those of tickets
whose reservation is Pending or Confirmed, so reclaiming a reservation frees
its seats. In the code, after the expiry sweep cancels the only booking of
flight F1, `seat_selection`'s taken-seat query still returns its seat 12A,
because the query (bookings/views.py line 42) filters tickets by flight only
and never by the owning booking's status. -/
theorem c1_reclaimed_seat_still_taken :
    (findBooking (delete_expired_bookings 1000 dbC1).2 1).map Booking.status
      = some "Cancelled" ∧
    takenSeats (delete_expired_bookings 1000 dbC1).2 "F1" = ["12A"] := by
  decide

/-- C2: the spec says a createReservation request for a seat already held by
a ticket of a Pending or Confirmed reservation on the flight must abort with
Conflict and persist nothing. In the code, `create_booking` performs no seat
availability check and `Ticket` carries no uniqueness constraint, so a second
request for the already-held seat 12A succeeds and leaves two tickets for
seat 12A owned by non-cancelled bookings of the same flight. -/
theorem c2_conflicting_seat_booked_twice :
    (activeSeatTickets dbC2 "F2" "12A").length = 1 ∧
    (create_booking dbC2 "F2" [("12A", c2Form)] "Economy" 2 0 0 2 10).1
      = CreateResult.success 2 ∧
    (activeSeatTickets
        (create_booking dbC2 "F2" [("12A", c2Form)] "Economy" 2 0 0 2 10).2
        "F2" "12A").length = 2 := by
  decide

/-- C3: the spec says status never leaves Cancelled, and that the payment
operation must not confirm a Cancelled reservation. In the code,
`process_payment` only short-circuits on status Confirmed, so a POST on the
Cancelled booking 5 records a payment and transitions it to Confirmed. -/
theorem c3_payment_confirms_cancelled_booking :
    (process_payment dbC3 5 3 true 50 1).1 = PayResult.paid ∧
    (findBooking (process_payment dbC3 5 3 true 50 1).2 5).map Booking.status
      = some "Confirmed" := by
  decide

/-- C4 counterexample: the claim says a Pending reservation created at time T
is Cancelled by any sweep running at or after T plus the threshold. The code
filters with the strict comparison `booking_date__lt = now - threshold`, so
the sweep running exactly at T + threshold (here 0 + 300 seconds) selects
nothing and leaves the reservation Pending. -/
theorem c4_sweep_at_exact_threshold_is_noop :
    (delete_expired_bookings (0 + pendingAgeThreshold) dbC4).1 = 0 ∧
    (findBooking (delete_expired_bookings (0 + pendingAgeThreshold) dbC4).2 9).map
        Booking.status = some "Pending" := by
  decide

/-- C4 amended: a reclaim sweep at time `now` transitions to Cancelled
exactly the Pending reservations whose creation timestamp is strictly older
than `now` minus the threshold, and changes no other reservation; a Pending
reservation created at T is untouched by every sweep running at or before
T plus the threshold and is Cancelled by any sweep running strictly after. -/
theorem c4_reclaim_cancels_exactly_strictly_expired (now : Int) (db : DB) :
    List.Forall₂ (fun b bAfter =>
      (b.status = "Pending" → b.booking_date + pendingAgeThreshold < now →
        bAfter = { b with status := "Cancelled" }) ∧
      ((b.status = "Pending" → now ≤ b.booking_date + pendingAgeThreshold) →
        bAfter = b))
      db.bookings (delete_expired_bookings now db).2.bookings := by
  have hb : (delete_expired_bookings now db).2.bookings
      = db.bookings.map (fun b =>
          if isExpired now b then { b with status := "Cancelled" } else b) := rfl
  rw [hb, List.forall₂_map_right_iff]
  refine List.forall₂_same.2 (fun b _ => ?_)
  by_cases h : isExpired now b
  · have hp : b.status = "Pending" ∧ b.booking_date < now - pendingAgeThreshold := by
      simpa [isExpired] using h
    refine ⟨fun _ _ => by simp [h], fun hle => ?_⟩
    exact absurd (hle hp.1) (by omega)
  · have hp : ¬ (b.status = "Pending" ∧ b.booking_date < now - pendingAgeThreshold) := by
      simpa [isExpired] using h
    refine ⟨fun h1 h2 => absurd ⟨h1, by omega⟩ hp, fun _ => by simp [h]⟩

/-- C7: `total_price` returns the flight's per-cabin unit price for the
booking's class times the stored passenger count for each class in
{Economy, Business, First}, and signals the invalid-class error (modelled
as `none`) for every class outside that enumeration; it is a pure function
of the flight and booking, so no state is mutated. -/
theorem c7_total_price_resolves_cabin_class (f : Flight) (b : Booking) :
    (b.seat_class = "Economy" →
      total_price f b = some (f.economy_price * (b.number_of_passengers : Int))) ∧
    (b.seat_class = "Business" →
      total_price f b = some (f.business_price * (b.number_of_passengers : Int))) ∧
    (b.seat_class = "First" →
      total_price f b = some (f.first_class_price * (b.number_of_passengers : Int))) ∧
    (b.seat_class ≠ "Economy" → b.seat_class ≠ "Business" →
      b.seat_class ≠ "First" → total_price f b = none) := by
  refine ⟨fun h => ?_, fun h => ?_, fun h => ?_, fun h1 h2 h3 => ?_⟩
  · simp [total_price, seat_prices, List.lookup, h]
  · simp [total_price, seat_prices, List.lookup, h]
  · simp [total_price, seat_prices, List.lookup, h]
  · have e1 : (b.seat_class == "Economy") = false := beq_eq_false_iff_ne.2 h1
    have e2 : (b.seat_class == "Business") = false := beq_eq_false_iff_ne.2 h2
    have e3 : (b.seat_class == "First") = false := beq_eq_false_iff_ne.2 h3
    simp [total_price, seat_prices, List.lookup, e1, e2, e3]

/-- C7 witness: the pricing theorem applied to a concrete Business booking
of two passengers, and to the out-of-enumeration class "Space". -/
theorem c7_total_price_witness :
    total_price c7Flight c7BookingBusiness
      = some (c7Flight.business_price * (c7BookingBusiness.number_of_passengers : Int)) ∧
    total_price c7Flight c7BookingSpace = none :=
  ⟨(c7_total_price_resolves_cabin_class c7Flight c7BookingBusiness).2.1 rfl,
   (c7_total_price_resolves_cabin_class c7Flight c7BookingSpace).2.2.2
     (by decide) (by decide) (by decide)⟩

/-- After one sweep, no booking still satisfies the sweep's queryset. -/
theorem isExpired_after_sweep (now : Int) (b : Booking) :
    isExpired now
      (if isExpired now b then { b with status := "Cancelled" } else b) = false := by
  by_cases h : isExpired now b
  · have hne : (("Cancelled" : String) == "Pending") = false := by decide
    rw [if_pos h]
    simp [isExpired, hne]
  · rw [if_neg h]
    simpa using h

/-- C8: running `delete_expired_bookings` twice at the same instant, with no
reservations created in between, yields the same state as running it once,
and the second run cancels zero reservations. -/
theorem c8_reclaim_idempotent (now : Int) (db : DB) :
    delete_expired_bookings now (delete_expired_bookings now db).2
      = (0, (delete_expired_bookings now db).2) := by
  have hnone : ∀ b ∈ (delete_expired_bookings now db).2.bookings,
      ¬ isExpired now b = true := by
    intro b hb
    have : (delete_expired_bookings now db).2.bookings
        = db.bookings.map (fun b =>
            if isExpired now b then { b with status := "Cancelled" } else b) := rfl
    rw [this] at hb
    rcases List.mem_map.1 hb with ⟨a, _, rfl⟩
    simp [isExpired_after_sweep]
  have hcount : ((delete_expired_bookings now db).2.bookings.filter
      (isExpired now)).length = 0 := by
    rw [List.filter_eq_nil_iff.2 hnone]; rfl
  have hmap : (delete_expired_bookings now db).2.bookings.map (fun b =>
      if isExpired now b then { b with status := "Cancelled" } else b)
      = (delete_expired_bookings now db).2.bookings := by
    have := List.map_congr_left (l := (delete_expired_bookings now db).2.bookings)
      (f := fun b => if isExpired now b then { b with status := "Cancelled" } else b)
      (g := id) (by intro a ha; simp [hnone a ha])
    simpa using this
  show ((((delete_expired_bookings now db).2.bookings.filter (isExpired now)).length : Nat),
      ({ (delete_expired_bookings now db).2 with
          bookings := (delete_expired_bookings now db).2.bookings.map (fun b =>
            if isExpired now b then { b with status := "Cancelled" } else b) } : DB))
      = (0, (delete_expired_bookings now db).2)
  rw [hcount, hmap]

/-- C6: when the flight resolves and at least one seat's details are
invalid, `create_booking` still validates every seat — the failure result
carries the per-seat error lists for the whole seat list, in order — and
aborts with the database unchanged: no Booking and no Ticket is persisted. -/
theorem c6_validation_all_or_nothing (db : DB) (flight_id : String)
    (seats : List (String × TicketFormData)) (seat_class_raw : String)
    (profile : Nat) (today now : Int) (newBookingId firstTicketId : Nat)
    (f : Flight) (hf : findFlight db flight_id = some f)
    (hbad : ∃ sf ∈ seats, formIsValid today sf.2 = false) :
    create_booking db flight_id seats seat_class_raw profile today now
        newBookingId firstTicketId
      = (CreateResult.validationFailure
          (seats.map (fun sf => (sf.1, formErrors today sf.2))), db) := by
  have hall : seats.all (fun sf => formIsValid today sf.2) = false := by
    rcases hbad with ⟨sf, hmem, hv⟩
    exact List.all_eq_false.2 ⟨sf, hmem, by simp [hv]⟩
  simp [create_booking, hf, hall]

/-- C6 witness: the all-or-nothing theorem applied to the two-seat request
where seat 1B fails validation. -/
theorem c6_validation_witness :
    create_booking dbC6 "F6" c6Seats "Economy" 2 0 0 1 10
      = (CreateResult.validationFailure
          (c6Seats.map (fun sf => (sf.1, formErrors 0 sf.2))), dbC6) :=
  c6_validation_all_or_nothing dbC6 "F6" c6Seats "Economy" 2 0 0 1 10 c6Flight
    (by decide) ⟨c6Seats.get ⟨1, by decide⟩, by decide, by decide⟩

/-- C9: when the requested ticket exists and belongs to the requester, the
owning booking is not Cancelled, and the booking's flight departed in the
past, `cancel_ticket` reports the departed flight and leaves the database
(the ticket and its reservation included) completely unchanged, for GET and
POST alike. The owner lookup and the already-cancelled check come first, in
that order, exactly as in the source. -/
theorem c9_cancel_after_departure_no_op (db : DB) (tid req : Nat) (now : Int)
    (isPost : Bool) (t : Ticket) (b : Booking) (f : Flight)
    (ht : db.tickets.find? (fun u => u.ticket_id == tid) = some t)
    (hb : findBooking db t.booking = some b)
    (howner : b.passenger = req)
    (hnc : ¬ b.status = "Cancelled")
    (hf : findFlight db b.flight = some f)
    (hdep : f.departure_datetime < now) :
    cancel_ticket db tid req now isPost = (CancelResult.flightDeparted, db) := by
  have e1 : (b.passenger == req) = true := beq_iff_eq.2 howner
  have e2 : (b.status == "Cancelled") = false := beq_eq_false_iff_ne.2 hnc
  simp [cancel_ticket, ht, hb, hf, e1, e2, hdep]

/-- C9 witness: the departed-flight theorem applied to a concrete POST
cancellation of ticket 7 on a flight that departed at time -100, observed
at time 0. -/
theorem c9_cancel_after_departure_witness :
    cancel_ticket dbC9 7 2 0 true = (CancelResult.flightDeparted, dbC9) :=
  c9_cancel_after_departure_no_op dbC9 7 2 0 true c9Ticket c9Booking c9Flight
    (by decide) (by decide) rfl (by decide) (by decide) (by decide)

/-- Case analysis on the state `cancel_ticket` produces: either the database
is unchanged (missing ticket, foreign owner, already-cancelled booking,
departed flight, or a non-POST request), or the ticket with the requested id
was found and deleted — keeping the bookings when other tickets of its
booking remain (pre-deletion count at least 2), and additionally marking its
booking Cancelled when it was the last one (pre-deletion count at most 1). -/
theorem cancel_ticket_state_cases (db : DB) (tid req : Nat) (now : Int)
    (isPost : Bool) :
    (cancel_ticket db tid req now isPost).2 = db ∨
    ∃ t, t ∈ db.tickets ∧ t.ticket_id = tid ∧
      (((cancel_ticket db tid req now isPost).2 =
          { db with tickets := db.tickets.filter (fun u => !(u.ticket_id == tid)) } ∧
        2 ≤ (db.tickets.filter (fun u => u.booking == t.booking)).length) ∨
       ((cancel_ticket db tid req now isPost).2 =
          { db with
            tickets := db.tickets.filter (fun u => !(u.ticket_id == tid)),
            bookings := db.bookings.map (fun b =>
              if b.booking_id == t.booking then { b with status := "Cancelled" }
              else b) } ∧
        (db.tickets.filter (fun u => u.booking == t.booking)).length ≤ 1)) := by
  rcases ht : db.tickets.find? (fun u => u.ticket_id == tid) with _ | t
  · left; simp [cancel_ticket, ht]
  · have htmem : t ∈ db.tickets := List.mem_of_find?_eq_some ht
    have htid : t.ticket_id = tid := by simpa using List.find?_some ht
    rcases hb : findBooking db t.booking with _ | booking
    · left; simp [cancel_ticket, ht, hb]
    · have hbid : booking.booking_id = t.booking := by
        simpa using List.find?_some hb
      by_cases hown : (booking.passenger == req) = true
      · by_cases hcanc : (booking.status == "Cancelled") = true
        · left; simp [cancel_ticket, ht, hb, hown, hcanc]
        · rcases hf : findFlight db booking.flight with _ | flight
          · left; simp [cancel_ticket, ht, hb, hown, hcanc, hf]
          · by_cases hdep : flight.departure_datetime < now
            · left; simp [cancel_ticket, ht, hb, hown, hcanc, hf, hdep]
            · cases isPost with
              | false =>
                left; simp [cancel_ticket, ht, hb, hown, hcanc, hf, hdep]
              | true =>
                by_cases hrc : (db.tickets.filter
                    (fun u => u.booking == t.booking)).length ≤ 1
                · right
                  refine ⟨t, htmem, htid, Or.inr ⟨?_, hrc⟩⟩
                  simp [cancel_ticket, ht, hb, hown, hcanc, hf, hdep, hbid, hrc]
                · right
                  refine ⟨t, htmem, htid, Or.inl ⟨?_, by omega⟩⟩
                  simp [cancel_ticket, ht, hb, hown, hcanc, hf, hdep, hbid, hrc]
      · left; simp [cancel_ticket, ht, hb, hown]

/-- C10: `cancel_ticket` never changes the flights table, and every booking
in the resulting database corresponds position-by-position to the original
booking with the same id, passenger count, cabin class and flight — at most
its status differs — so `Payment.get_amount` computed over the booking is
unchanged by any cancellation, including one that removes only some of the
booking's tickets. -/
theorem c10_cancel_ticket_frame (db : DB) (tid req : Nat) (now : Int)
    (isPost : Bool) :
    (cancel_ticket db tid req now isPost).2.flights = db.flights ∧
    List.Forall₂ (fun b bAfter =>
      bAfter.booking_id = b.booking_id ∧
      bAfter.number_of_passengers = b.number_of_passengers ∧
      bAfter.seat_class = b.seat_class ∧
      bAfter.flight = b.flight ∧
      ∀ f : Flight, get_amount f bAfter = get_amount f b)
      db.bookings (cancel_ticket db tid req now isPost).2.bookings := by
  rcases cancel_ticket_state_cases db tid req now isPost with
    h | ⟨t, _, _, ⟨h, _⟩ | ⟨h, _⟩⟩
  · rw [h]
    exact ⟨rfl, List.forall₂_same.2 (fun x _ => ⟨rfl, rfl, rfl, rfl, fun f => rfl⟩)⟩
  · rw [h]
    exact ⟨rfl, List.forall₂_same.2 (fun x _ => ⟨rfl, rfl, rfl, rfl, fun f => rfl⟩)⟩
  · rw [h]
    refine ⟨rfl, ?_⟩
    rw [show ({ db with
        tickets := db.tickets.filter (fun u => !(u.ticket_id == tid)),
        bookings := db.bookings.map (fun b =>
          if b.booking_id == t.booking then { b with status := "Cancelled" }
          else b) } : DB).bookings
      = db.bookings.map (fun b =>
          if b.booking_id == t.booking then { b with status := "Cancelled" }
          else b) from rfl]
    rw [List.forall₂_map_right_iff]
    refine List.forall₂_same.2 (fun x _ => ?_)
    by_cases hid : (x.booking_id == t.booking) = true
    · rw [if_pos hid]
      exact ⟨rfl, rfl, rfl, rfl, fun f => rfl⟩
    · rw [if_neg hid]
      exact ⟨rfl, rfl, rfl, rfl, fun f => rfl⟩

/-- Deleting the ticket `t` (by its primary key) from a list with pairwise
distinct ids removes exactly one ticket of `t`'s booking and none of any
other booking's. -/
theorem length_filter_erase (l : List Ticket) (t : Ticket) (bid : Nat)
    (ht : t ∈ l) (hnd : (l.map Ticket.ticket_id).Nodup) :
    ((l.filter (fun u => !(u.ticket_id == t.ticket_id))).filter
        (fun u => u.booking == bid)).length
      + (if t.booking == bid then 1 else 0)
      = (l.filter (fun u => u.booking == bid)).length := by
  induction l with
  | nil => cases ht
  | cons a l ih =>
    rw [List.map_cons, List.nodup_cons] at hnd
    rcases List.mem_cons.1 ht with heq | htl
    · subst heq
      have hkeep : l.filter (fun u => !(u.ticket_id == t.ticket_id)) = l :=
        List.filter_eq_self.2 (fun u hu => by
          have hne : u.ticket_id ≠ t.ticket_id := by
            intro he
            exact hnd.1 (he ▸ List.mem_map_of_mem Ticket.ticket_id hu)
          simpa using hne)
      simp only [List.filter_cons, beq_self_eq_true, Bool.not_true,
        Bool.false_eq_true, if_false, hkeep]
      by_cases hab : (t.booking == bid) = true
      · simp [hab]
      · simp [hab]
    · have hane : (!(a.ticket_id == t.ticket_id)) = true := by
        have hne : a.ticket_id ≠ t.ticket_id := by
          intro he
          exact hnd.1 (he ▸ List.mem_map_of_mem Ticket.ticket_id htl)
        simpa using hne
      have hrec := ih htl hnd.2
      simp only [List.filter_cons, hane, if_true]
      by_cases hab : (a.booking == bid) = true
      · simp only [hab, if_true, List.length_cons]
        omega
      · simp only [hab, Bool.false_eq_true, if_false]
        omega

/-- `find?` by booking id commutes with a booking-id-preserving map. -/
theorem find_booking_map (l : List Booking) (g : Booking → Booking)
    (hg : ∀ b, (g b).booking_id = b.booking_id) (bid : Nat) :
    (l.map g).find? (fun b => b.booking_id == bid)
      = Option.map g (l.find? (fun b => b.booking_id == bid)) := by
  rw [List.find?_map]
  have hfun : ((fun b : Booking => b.booking_id == bid) ∘ g)
      = (fun b : Booking => b.booking_id == bid) := by
    funext b
    simp [Function.comp, hg]
  rw [hfun]

/-- C5: provided ticket ids are distinct, `cancel_ticket` preserves the
invariant that every booking with zero tickets is Cancelled — so the
invariant holds after any sequence of cancellations from a state satisfying
it — and, in particular, a POST cancellation of the last remaining ticket
of a requester-owned, non-cancelled booking whose flight has not yet
departed leaves that booking with status Cancelled. -/
theorem c5_last_ticket_cancels_booking (db : DB) (tid req : Nat) (now : Int)
    (isPost : Bool) (hnd : NoDupTicketIds db) (hinv : ZeroTicketsCancelled db) :
    ZeroTicketsCancelled (cancel_ticket db tid req now isPost).2 ∧
    (∀ t b f, db.tickets.find? (fun u => u.ticket_id == tid) = some t →
      findBooking db t.booking = some b → b.passenger = req →
      ¬ b.status = "Cancelled" → findFlight db b.flight = some f →
      ¬ f.departure_datetime < now → isPost = true →
      ticketCount db b.booking_id = 1 →
      (findBooking (cancel_ticket db tid req now isPost).2 b.booking_id).map
        Booking.status = some "Cancelled") := by
  constructor
  · rcases cancel_ticket_state_cases db tid req now isPost with
      h | ⟨t, htmem, htid, ⟨h, hge⟩ | ⟨h, hle⟩⟩
    · rw [h]; exact hinv
    · rw [h]
      intro b hb hcount
      have hkey := length_filter_erase db.tickets t b.booking_id htmem hnd
      rw [htid] at hkey
      simp only [ticketCount] at hcount
      by_cases hbb : (t.booking == b.booking_id) = true
      · exfalso
        have hb2 : t.booking = b.booking_id := by simpa using hbb
        rw [hb2] at hge
        simp only [hbb, if_true] at hkey
        omega
      · apply hinv b hb
        simp only [ticketCount]
        simp only [hbb, Bool.false_eq_true, if_false] at hkey
        omega
    · rw [h]
      intro b2 hb2 hcount
      rcases List.mem_map.1 hb2 with ⟨b0, hb0, rfl⟩
      by_cases hid : (b0.booking_id == t.booking) = true
      · rw [if_pos hid]
      · rw [if_neg hid] at hcount ⊢
        have hkey := length_filter_erase db.tickets t b0.booking_id htmem hnd
        rw [htid] at hkey
        simp only [ticketCount] at hcount
        have hbb : (t.booking == b0.booking_id) = false := by
          have : ¬ t.booking = b0.booking_id := by
            intro he
            exact hid (by simpa using he.symm)
          simpa using this
        apply hinv b0 hb0
        simp only [ticketCount]
        simp only [hbb, Bool.false_eq_true, if_false] at hkey
        omega
  · intro t b f ht hb howner hnc hf hdep hpost hcnt
    subst hpost
    have htid : t.ticket_id = tid := by simpa using List.find?_some ht
    have hbid : b.booking_id = t.booking := by simpa using List.find?_some hb
    have e1 : (b.passenger == req) = true := beq_iff_eq.2 howner
    have e2 : (b.status == "Cancelled") = false := beq_eq_false_iff_ne.2 hnc
    have hrc : (db.tickets.filter (fun u => u.booking == b.booking_id)).length ≤ 1 := by
      simp only [ticketCount] at hcnt
      omega
    rw [hbid] at hrc
    have hstate : (cancel_ticket db tid req now true).2 = { db with
        tickets := db.tickets.filter (fun u => !(u.ticket_id == tid)),
        bookings := db.bookings.map (fun bb =>
          if bb.booking_id == t.booking then { bb with status := "Cancelled" }
          else bb) } := by
      simp [cancel_ticket, ht, hb, hf, e1, e2, hdep, hbid, hrc]
    rw [hstate]
    have hg : ∀ bb : Booking,
        ((fun bb : Booking =>
          if bb.booking_id == t.booking then { bb with status := "Cancelled" }
          else bb) bb).booking_id = bb.booking_id := by
      intro bb
      by_cases hc : (bb.booking_id == t.booking) = true <;> simp [hc]
    show (List.find? (fun bb => bb.booking_id == b.booking_id)
        (db.bookings.map (fun bb =>
          if bb.booking_id == t.booking then { bb with status := "Cancelled" }
          else bb))).map Booking.status = some "Cancelled"
    rw [find_booking_map db.bookings _ hg b.booking_id]
    have hfind : db.bookings.find? (fun bb => bb.booking_id == b.booking_id)
        = some b := by
      rw [hbid]
      exact hb
    rw [hfind]
    simp [hbid]

/-- C5 witness: the cascade theorem applied to the POST cancellation of the
only ticket of booking 1, observed before departure; the booking ends up
Cancelled and the zero-tickets invariant holds in the resulting state. -/
theorem c5_last_ticket_witness :
    NoDupTicketIds dbC5 ∧ ZeroTicketsCancelled dbC5 ∧
    ZeroTicketsCancelled (cancel_ticket dbC5 7 2 0 true).2 ∧
    (findBooking (cancel_ticket dbC5 7 2 0 true).2 c5Booking.booking_id).map
      Booking.status = some "Cancelled" :=
  ⟨by decide, by decide,
   (c5_last_ticket_cancels_booking dbC5 7 2 0 true (by decide) (by decide)).1,
   (c5_last_ticket_cancels_booking dbC5 7 2 0 true (by decide) (by decide)).2
     c5Ticket c5Booking c5Flight (by decide) (by decide) rfl (by decide)
     (by decide) (by decide) rfl (by decide)⟩

/-- C4 amended witness: the characterization applied at the concrete sweep
time 301, one second past the booking's deadline of 0 + 300: the Pending
booking created at 0 comes out Cancelled. -/
theorem c4_reclaim_amended_witness :
    (delete_expired_bookings 301 dbC4).2.bookings
      = [{ c4Booking with status := "Cancelled" }] := by
  have h := c4_reclaim_cancels_exactly_strictly_expired 301 dbC4
  have hpair := (List.forall₂_cons.1 h).1
  have hhead := hpair.1 rfl (by decide)
  calc (delete_expired_bookings 301 dbC4).2.bookings
      = [(fun b => if isExpired 301 b then { b with status := "Cancelled" }
          else b) c4Booking] := rfl
    _ = [{ c4Booking with status := "Cancelled" }] := by rw [hhead]

/-- C10 witness: the frame theorem applied to the POST cancellation of one
of booking 1's two tickets. -/
theorem c10_cancel_ticket_frame_witness :
    (cancel_ticket dbC10 7 2 0 true).2.flights = dbC10.flights ∧
    List.Forall₂ (fun b bAfter =>
      bAfter.booking_id = b.booking_id ∧
      bAfter.number_of_passengers = b.number_of_passengers ∧
      bAfter.seat_class = b.seat_class ∧
      bAfter.flight = b.flight ∧
      ∀ f : Flight, get_amount f bAfter = get_amount f b)
      dbC10.bookings (cancel_ticket dbC10 7 2 0 true).2.bookings :=
  c10_cancel_ticket_frame dbC10 7 2 0 true
